import Mathlib

/-!
Verification of the stock-ledger client against its specification.

The definitions below are a shallow embedding of the TypeScript sources:
stockLedgerService.ts (validation helpers, withRetry, addEntry, getEntries,
updateEntry), StockDashboard.tsx (onAddSellDetails), the SellDetailsDialog
submit handler, StockLedgerTable (derived target and stop-loss prices),
LivePrice (derived quote view values) and StockSearch (symbol formatting).
JavaScript numbers that can be absent or NaN are modelled by an inductive
wrapper over the rationals; fallible code returns Except.
-/

deriving instance DecidableEq for Except

namespace StockLedger

/-- Firestore error codes handled by handleFirestoreError in
stockLedgerService.ts. -/
inductive FirestoreCode
  | unavailable
  | failedPrecondition
  | permissionDenied
  | notFound
  | alreadyExists
  | resourceExhausted
  | other
deriving DecidableEq, Repr

/-- A thrown JavaScript error: either a FirestoreError carrying a code, or a
plain Error carrying only a message (everything produced by a throw of
new Error in the sources). -/
inductive JsError
  | firestore (code : FirestoreCode) (message : String)
  | generic (message : String)
deriving DecidableEq, Repr

/-- The message property of an error, as read by template strings in the
sources. -/
def JsError.message : JsError → String
  | .firestore _ m => m
  | .generic m => m

/-- A JavaScript number-valued field: absent (undefined or null), NaN, or an
actual numeric value (modelled as a rational). -/
inductive JsNumber
  | missing
  | nan
  | val (q : ℚ)
deriving DecidableEq, Repr

/-- JavaScript truthiness of a number-valued field: undefined, null, NaN and 0
are falsy. -/
def JsNumber.truthy : JsNumber → Bool
  | .missing => false
  | .nan => false
  | .val q => q != 0

/-- A value of an optional rational field viewed as the corresponding
JavaScript value (a property present with value undefined when none). -/
def JsNumber.ofOption : Option ℚ → JsNumber
  | none => .missing
  | some q => .val q

/-- True when validateNumericField rejects the value: absent, NaN, or not
greater than zero. -/
def JsNumber.invalidPositive : JsNumber → Bool
  | .missing => true
  | .nan => true
  | .val q => q ≤ 0

/-- JavaScript truthiness of a string-valued field: undefined and the empty
string are falsy. -/
def strTruthy : Option String → Bool
  | none => false
  | some s => s != ""

/-- JavaScript truthiness of a date-valued field stored as an epoch number:
undefined and 0 are falsy. -/
def dateTruthy : Option Int → Bool
  | none => false
  | some t => t != 0

/-- Boolean coercion of a stored flag, as in Boolean(data.hitTarget):
absent means false. -/
def boolTruthy : Option Bool → Bool
  | none => false
  | some b => b

/-- validateAndFormatNumber from stockLedgerService.ts: rejects null and
undefined with a required-field message and NaN with a valid-number message. -/
def validateAndFormatNumber (value : JsNumber) (fieldName : String) :
    Except JsError ℚ :=
  match value with
  | .missing => .error (.generic (fieldName ++ " is required"))
  | .nan => .error (.generic (fieldName ++ " must be a valid number"))
  | .val q => .ok q

/-- The JavaScript trim operation: drop whitespace from both ends of the
string (modelled over the character list of the string). -/
def jsTrim (s : String) : String :=
  String.mk (((s.data.dropWhile Char.isWhitespace).reverse.dropWhile
    Char.isWhitespace).reverse)

/-- validateString from stockLedgerService.ts: rejects absent values and
strings that are empty after trimming; returns the trimmed string. -/
def validateString (value : Option String) (fieldName : String) :
    Except JsError String :=
  match value with
  | none =>
    .error (.generic (fieldName ++ " is required and must be a non-empty string"))
  | some s =>
    if jsTrim s = "" then
      .error (.generic (fieldName ++ " is required and must be a non-empty string"))
    else .ok (jsTrim s)

/-- validateNumericField from stockLedgerService.ts: a valid number that is
moreover strictly positive. -/
def validateNumericField (value : JsNumber) (fieldName : String) :
    Except JsError ℚ := do
  let num ← validateAndFormatNumber value fieldName
  if num ≤ 0 then throw (.generic (fieldName ++ " must be greater than 0"))
  else pure num

/-- validateAndFormatDate from stockLedgerService.ts, on a date stored as an
epoch number: a falsy value (absent or 0) is rejected, any other instant is
returned (the source normalizes it to an ISO string). -/
def validateAndFormatDate (date : Option Int) : Except JsError Int :=
  match date with
  | none => .error (.generic "Date is required")
  | some t => if t = 0 then .error (.generic "Date is required") else .ok t

/-- handleFirestoreError from stockLedgerService.ts: maps every caught error
to a plain Error with a user-facing message. Note that the result is always a
generic error, never a FirestoreError. -/
def handleFirestoreError (error : JsError) (operation : String) : JsError :=
  match error with
  | .firestore code msg =>
    match code with
    | .permissionDenied =>
      .generic "Please verify that you have the necessary permissions to perform this operation. If the issue persists, try refreshing the page."
    | .notFound =>
      .generic "The requested stock entry could not be found. It may have been deleted."
    | .alreadyExists =>
      .generic "This stock entry already exists. Please try updating it instead."
    | .failedPrecondition =>
      .generic "Unable to complete the operation. Please ensure all required data is provided."
    | .unavailable =>
      .generic "The service is temporarily unavailable. Please try again in a few moments."
    | .resourceExhausted =>
      .generic "You have exceeded the maximum number of operations. Please wait a moment and try again."
    | .other =>
      .generic ("Operation failed: " ++ msg ++ ". Please try again or contact support if the issue persists.")
  | .generic msg =>
    .generic ("Failed to " ++ operation ++ ": " ++ msg)

/-- MAX_RETRIES from stockLedgerService.ts: 5 in production, 3 otherwise. -/
def MAX_RETRIES (production : Bool) : Nat := if production then 5 else 3

/-- The retry classification inside the loop of withRetry: a FirestoreError is
rethrown immediately unless its code is unavailable or failed-precondition;
any other error (in particular every plain Error) falls through to the retry
path. -/
def retryableInLoop : JsError → Bool
  | .firestore code _ => code == .unavailable || code == .failedPrecondition
  | .generic _ => true

/-- The loop body of withRetry from stockLedgerService.ts, over an operation
that may also transform a store state. The fuel argument counts the loop
iterations still allowed and starts at maxRetries; the fuel-exhausted case
corresponds to the unreachable trailing throw of lastError. The error result
carries the number of the attempt on which the operation gave up. -/
def withRetryGo (op : Nat → σ → Except JsError α × σ) (maxRetries : Nat) :
    Nat → Nat → σ → Except (JsError × Nat) α × σ
  | attempt, 0, s => (.error (.generic "unreachable", attempt - 1), s)
  | attempt, fuel + 1, s =>
    match op attempt s with
    | (.ok v, s₁) => (.ok v, s₁)
    | (.error e, s₁) =>
      if retryableInLoop e then
        if attempt = maxRetries then (.error (e, attempt), s₁)
        else withRetryGo op maxRetries (attempt + 1) fuel s₁
      else (.error (e, attempt), s₁)

/-- withRetry from stockLedgerService.ts: run the operation starting at
attempt 1, retrying while the loop classification allows it, up to maxRetries
attempts. -/
def withRetry (op : Nat → σ → Except JsError α × σ) (maxRetries : Nat)
    (s : σ) : Except (JsError × Nat) α × σ :=
  withRetryGo op maxRetries 1 maxRetries s

/-- A document of the stockEntries collection, with every field optional,
mirroring DocumentData as consumed by convertFirestoreToStockEntry. Date
fields are epoch numbers, numeric fields are JavaScript numbers. -/
structure DocumentData where
  stockName : Option String := none
  symbol : Option String := none
  reason : Option String := none
  confidence : Option String := none
  status : Option String := none
  chartLink : Option String := none
  dateBuy : Option Int := none
  createdAt : Option Int := none
  updatedAt : Option Int := none
  dateSell : Option Int := none
  priceBuy : JsNumber := .missing
  targetPercent : JsNumber := .missing
  stopLossPercent : JsNumber := .missing
  priceSell : JsNumber := .missing
  profitLoss : JsNumber := .missing
  riskReward : JsNumber := .missing
  hitTarget : Option Bool := none
  hitStopLoss : Option Bool := none
deriving DecidableEq, Repr

/-- The StockEntry shape from types/ledger.ts as held in client memory. -/
structure StockEntry where
  id : String
  stockName : String
  symbol : String
  dateBuy : Int
  priceBuy : ℚ
  targetPercent : ℚ
  stopLossPercent : ℚ
  reason : String
  chartLink : Option String := none
  confidence : String
  riskReward : Option ℚ := none
  profitLoss : Option ℚ := none
  hitTarget : Bool := false
  hitStopLoss : Bool := false
  dateSell : Option Int := none
  priceSell : Option ℚ := none
  status : String
  createdAt : Int
  updatedAt : Int
deriving DecidableEq, Repr

/-- The NewStockEntry input to addEntry, before any validation. -/
structure NewStockEntry where
  stockName : String
  symbol : String
  dateBuy : Int
  priceBuy : JsNumber
  targetPercent : JsNumber
  stopLossPercent : JsNumber
  reason : String
  chartLink : Option String := none
  confidence : String
deriving DecidableEq, Repr

/-- The toFixed rounding with 2 fraction digits applied by addEntry to the
risk-reward ratio: round to the nearest hundredth, ties away from zero for
the nonnegative values arising here. -/
def toFixed2 (q : ℚ) : ℚ := (round (q * 100) : ℤ) / 100

/-- The validation and construction phase of addEntry from
stockLedgerService.ts, producing the document written to the store (the
cleanedEntry value). All the field checks run before the store write. -/
def addEntryValidate (now : Int) (entry : NewStockEntry) :
    Except JsError DocumentData := do
  let stockName ← validateString (some entry.stockName) "Stock name"
  let symbol ← validateString (some entry.symbol) "Symbol"
  let reason ← validateString (some entry.reason) "Reason"
  let confidence ← validateString (some entry.confidence) "Confidence"
  let _ ← (if confidence = "Low" ∨ confidence = "Medium" ∨ confidence = "High" then
      pure PUnit.unit
    else throw (.generic "Invalid confidence level") : Except JsError PUnit)
  let priceBuy ← validateNumericField entry.priceBuy "Buy price"
  let targetPercent ← validateNumericField entry.targetPercent "Target percentage"
  let stopLossPercent ← validateNumericField entry.stopLossPercent "Stop loss percentage"
  pure {
    stockName := some stockName
    symbol := some symbol
    dateBuy := some entry.dateBuy
    priceBuy := .val priceBuy
    targetPercent := .val targetPercent
    stopLossPercent := .val stopLossPercent
    reason := some reason
    chartLink := entry.chartLink.map jsTrim
    confidence := some confidence
    riskReward := .val (toFixed2 (targetPercent / stopLossPercent))
    createdAt := some now
    updatedAt := some now
    status := some "Active" }

/-- One attempt of the operation addEntry passes to withRetry: validate and
construct the document, then ask the store to add it; the storeErr argument
gives the FirestoreError the store raises on a given attempt, if any. The
surrounding catch routes every error through handleFirestoreError before it
reaches withRetry. -/
def addEntryOp (storeErr : Nat → Option JsError) (now : Int)
    (entry : NewStockEntry) (attempt : Nat) (store : List DocumentData) :
    Except JsError DocumentData × List DocumentData :=
  match addEntryValidate now entry with
  | .error e => (.error (handleFirestoreError e "add stock entry"), store)
  | .ok docData =>
    match storeErr attempt with
    | some e => (.error (handleFirestoreError e "add stock entry"), store)
    | none => (.ok docData, store ++ [docData])

/-- addEntry from stockLedgerService.ts: the validating operation wrapped in
withRetry with the environment-dependent maximum attempt count. The result
records on failure the error and the number of attempts performed, and the
final state of the stored collection. -/
def addEntry (production : Bool) (storeErr : Nat → Option JsError) (now : Int)
    (entry : NewStockEntry) (store : List DocumentData) :
    Except (JsError × Nat) DocumentData × List DocumentData :=
  withRetry (addEntryOp storeErr now entry) (MAX_RETRIES production) store

/-- convertFirestoreToStockEntry from stockLedgerService.ts: validate the
required fields of a stored document, normalize the optional ones through
JavaScript truthiness, and coerce the hit flags with Boolean. -/
def convertFirestoreToStockEntry (id : String) (data : DocumentData) :
    Except JsError StockEntry :=
  (do
    let stockName ← validateString data.stockName "Stock name"
    let symbol ← validateString data.symbol "Symbol"
    let reason ← validateString data.reason "Reason"
    let confidence ← validateString data.confidence "Confidence"
    let _ ← (if confidence = "Low" ∨ confidence = "Medium" ∨ confidence = "High" then
        pure PUnit.unit
      else throw (.generic "Invalid confidence level") : Except JsError PUnit)
    let dateBuy ← validateAndFormatDate data.dateBuy
    let createdAt ← validateAndFormatDate data.createdAt
    let updatedAt ← validateAndFormatDate data.updatedAt
    let priceBuy ← validateAndFormatNumber data.priceBuy "Buy price"
    let targetPercent ← validateAndFormatNumber data.targetPercent "Target percentage"
    let stopLossPercent ← validateAndFormatNumber data.stopLossPercent "Stop loss percentage"
    let chartLink ← (if strTruthy data.chartLink then
        (validateString data.chartLink "Chart link").map some
      else pure none : Except JsError (Option String))
    let dateSell ← (if dateTruthy data.dateSell then
        (validateAndFormatDate data.dateSell).map some
      else pure none : Except JsError (Option Int))
    let priceSell ← (if data.priceSell.truthy then
        (validateAndFormatNumber data.priceSell "Sell price").map some
      else pure none : Except JsError (Option ℚ))
    let profitLoss ← (if data.profitLoss.truthy then
        (validateAndFormatNumber data.profitLoss "Profit/Loss").map some
      else pure none : Except JsError (Option ℚ))
    let status ← validateString data.status "Status"
    let _ ← (if status = "Active" ∨ status = "Closed" then pure PUnit.unit
      else throw (.generic "Invalid status") : Except JsError PUnit)
    pure {
      id := id
      stockName := stockName
      symbol := symbol
      dateBuy := dateBuy
      priceBuy := priceBuy
      targetPercent := targetPercent
      stopLossPercent := stopLossPercent
      reason := reason
      chartLink := chartLink
      confidence := confidence
      riskReward := match data.riskReward with
        | .val q => if q = 0 then none else some q
        | .nan => none
        | .missing => none
      profitLoss := profitLoss
      hitTarget := boolTruthy data.hitTarget
      hitStopLoss := boolTruthy data.hitStopLoss
      dateSell := dateSell
      priceSell := priceSell
      status := status
      createdAt := createdAt
      updatedAt := updatedAt } : Except JsError StockEntry).mapError
    fun e => .generic ("Failed to convert document " ++ id ++ ": " ++ e.message)

/-- The update document built by updateEntry in stockLedgerService.ts. A
field is some value exactly when updateEntry copies it into updateData; the
source never copies status, profitLoss, hitTarget, hitStopLoss, riskReward,
chartLink or createdAt, so those fields have no slot here. The dateSell slot
holds an inner Option because the source writes null when the incoming
dateSell is falsy. -/
structure UpdateData where
  stockName : Option String := none
  symbol : Option String := none
  reason : Option String := none
  confidence : Option String := none
  priceBuy : Option ℚ := none
  priceSell : Option ℚ := none
  targetPercent : Option ℚ := none
  stopLossPercent : Option ℚ := none
  dateBuy : Option Int := none
  dateSell : Option (Option Int) := none
  updatedAt : Option Int := none
deriving DecidableEq, Repr

/-- updateEntry from stockLedgerService.ts applied to a full StockEntry, the
shape it receives from onAddSellDetails and handleEditEntry (every property
of the entry object is present, so every membership test on updates
succeeds). Produces the updateData document sent to the store. -/
def updateEntryData (now : Int) (id : String) (updates : StockEntry) :
    Except JsError UpdateData := do
  if id = "" then throw (.generic "Entry ID is required for update")
  let stockName ← validateString (some updates.stockName) "Stock name"
  let symbol ← validateString (some updates.symbol) "Symbol"
  let priceBuy ← validateNumericField (.val updates.priceBuy) "Buy price"
  let priceSell ← validateNumericField (JsNumber.ofOption updates.priceSell) "Sell price"
  let targetPercent ← validateNumericField (.val updates.targetPercent) "Target percentage"
  let stopLossPercent ← validateNumericField (.val updates.stopLossPercent) "Stop loss percentage"
  let reason ← validateString (some updates.reason) "Reason"
  let confidence ← validateString (some updates.confidence) "Confidence"
  let _ ← (if confidence = "Low" ∨ confidence = "Medium" ∨ confidence = "High" then
      pure PUnit.unit
    else throw (.generic "Invalid confidence level") : Except JsError PUnit)
  pure {
    stockName := some stockName
    symbol := some symbol
    priceBuy := some priceBuy
    priceSell := some priceSell
    targetPercent := some targetPercent
    stopLossPercent := some stopLossPercent
    reason := some reason
    confidence := some confidence
    dateBuy := some updates.dateBuy
    dateSell := some updates.dateSell
    updatedAt := some now }

/-- The effect of updateDoc on a stored document: fields present in the
update document overwrite the stored ones, all other stored fields are left
untouched. -/
def applyUpdate (d : DocumentData) (u : UpdateData) : DocumentData :=
  { d with
    stockName := match u.stockName with | some v => some v | none => d.stockName
    symbol := match u.symbol with | some v => some v | none => d.symbol
    reason := match u.reason with | some v => some v | none => d.reason
    confidence := match u.confidence with | some v => some v | none => d.confidence
    priceBuy := match u.priceBuy with | some v => .val v | none => d.priceBuy
    priceSell := match u.priceSell with | some v => .val v | none => d.priceSell
    targetPercent := match u.targetPercent with | some v => .val v | none => d.targetPercent
    stopLossPercent := match u.stopLossPercent with | some v => .val v | none => d.stopLossPercent
    dateBuy := match u.dateBuy with | some v => some v | none => d.dateBuy
    dateSell := match u.dateSell with | some v => v | none => d.dateSell
    updatedAt := match u.updatedAt with | some v => some v | none => d.updatedAt }

/-- The updated entry built by onAddSellDetails in StockDashboard.tsx before
it calls updateEntry: sell fields merged in, status set to Closed, profit or
loss and the two hit flags computed from the existing buy data. -/
def closeEntryLocal (entry : StockEntry) (dateSell : Int) (priceSell : ℚ) :
    StockEntry :=
  { entry with
    dateSell := some dateSell
    priceSell := some priceSell
    status := "Closed"
    profitLoss := some (priceSell - entry.priceBuy)
    hitTarget := priceSell ≥ entry.priceBuy * (1 + entry.targetPercent / 100)
    hitStopLoss := priceSell ≤ entry.priceBuy * (1 - entry.stopLossPercent / 100) }

/-- The close path of onAddSellDetails: build the updated entry, run it
through updateEntry, and apply the resulting update document to the stored
document. Returns the updated in-memory entry together with the document the
store holds afterwards. -/
def closePipeline (now : Int) (entry : StockEntry) (doc : DocumentData)
    (dateSell : Int) (priceSell : ℚ) :
    Except JsError (StockEntry × DocumentData) := do
  let updatedEntry := closeEntryLocal entry dateSell priceSell
  let updateData ← updateEntryData now entry.id updatedEntry
  pure (updatedEntry, applyUpdate doc updateData)

/-- The sell-price check of the SellDetailsDialog submit handler: the parsed
price must be an actual number greater than zero. -/
def sellDialogParse (parsed : JsNumber) : Except JsError ℚ :=
  match parsed with
  | .missing => .error (.generic "Please enter a valid sell price")
  | .nan => .error (.generic "Please enter a valid sell price")
  | .val p =>
    if p ≤ 0 then .error (.generic "Please enter a valid sell price")
    else .ok p

/-- A whole close attempt: the dialog submit handler followed by
onAddSellDetails and updateEntry. No other check stands between the dialog
and the store write. -/
def closeAttempt (now : Int) (entry : StockEntry) (doc : DocumentData)
    (dateSell : Int) (parsedPrice : JsNumber) :
    Except JsError (StockEntry × DocumentData) := do
  let p ← sellDialogParse parsedPrice
  closePipeline now entry doc dateSell p

/-- The stored document after a close attempt: unchanged when the attempt
fails, the written document when it succeeds. -/
def closeResultStore (now : Int) (entry : StockEntry) (doc : DocumentData)
    (dateSell : Int) (parsedPrice : JsNumber) : DocumentData :=
  match closeAttempt now entry doc dateSell parsedPrice with
  | .ok r => r.2
  | .error _ => doc

/-- The derived target price displayed by StockLedgerTable. -/
def targetPrice (priceBuy targetPercent : ℚ) : ℚ :=
  priceBuy * (1 + targetPercent / 100)

/-- The derived stop-loss price displayed by StockLedgerTable. -/
def stopLossPrice (priceBuy stopLossPercent : ℚ) : ℚ :=
  priceBuy * (1 - stopLossPercent / 100)

/-- A JavaScript floating-point value as produced by the arithmetic of the
LivePrice component: NaN, a signed infinity, or a finite value. -/
inductive JsFloat
  | nan
  | posInf
  | negInf
  | fin (q : ℚ)
deriving DecidableEq, Repr

/-- The Number coercion applied to an optional numeric quote field: an absent
field becomes NaN. -/
def jsOfOpt : Option ℚ → JsFloat
  | none => .nan
  | some q => .fin q

/-- IEEE subtraction on the modelled JavaScript values. -/
def jsSub : JsFloat → JsFloat → JsFloat
  | .nan, _ => .nan
  | _, .nan => .nan
  | .posInf, .posInf => .nan
  | .posInf, _ => .posInf
  | .negInf, .negInf => .nan
  | .negInf, _ => .negInf
  | .fin _, .posInf => .negInf
  | .fin _, .negInf => .posInf
  | .fin a, .fin b => .fin (a - b)

/-- IEEE division on the modelled JavaScript values, with zero treated as
positive zero. -/
def jsDiv : JsFloat → JsFloat → JsFloat
  | .nan, _ => .nan
  | _, .nan => .nan
  | .posInf, .posInf => .nan
  | .posInf, .negInf => .nan
  | .negInf, .posInf => .nan
  | .negInf, .negInf => .nan
  | .posInf, .fin b => if b < 0 then .negInf else .posInf
  | .negInf, .fin b => if b < 0 then .posInf else .negInf
  | .fin _, .posInf => .fin 0
  | .fin _, .negInf => .fin 0
  | .fin a, .fin b =>
    if b = 0 then
      if a = 0 then .nan else if a > 0 then .posInf else .negInf
    else .fin (a / b)

/-- IEEE multiplication on the modelled JavaScript values. -/
def jsMul : JsFloat → JsFloat → JsFloat
  | .nan, _ => .nan
  | _, .nan => .nan
  | .posInf, .posInf => .posInf
  | .posInf, .negInf => .negInf
  | .negInf, .posInf => .negInf
  | .negInf, .negInf => .posInf
  | .posInf, .fin b => if b = 0 then .nan else if b > 0 then .posInf else .negInf
  | .negInf, .fin b => if b = 0 then .nan else if b > 0 then .negInf else .posInf
  | .fin a, .posInf => if a = 0 then .nan else if a > 0 then .posInf else .negInf
  | .fin a, .negInf => if a = 0 then .nan else if a > 0 then .negInf else .posInf
  | .fin a, .fin b => .fin (a * b)

/-- The meta object of a quote response as read by LivePrice: both price
fields may be absent. -/
structure QuoteMeta where
  regularMarketPrice : Option ℚ := none
  previousClose : Option ℚ := none
deriving DecidableEq, Repr

/-- The priceChange value computed by LivePrice: the difference of the two
Number coercions, with no guard on the previous close. -/
def livePriceChange (meta : QuoteMeta) : JsFloat :=
  jsSub (jsOfOpt meta.regularMarketPrice) (jsOfOpt meta.previousClose)

/-- The priceChangePercent value computed by LivePrice: the change divided by
the previous close and scaled by 100, with no guard against a zero or absent
previous close. -/
def livePriceChangePercent (meta : QuoteMeta) : JsFloat :=
  jsMul (jsDiv (livePriceChange meta) (jsOfOpt meta.previousClose)) (.fin 100)

/-- The characters kept by the search input handler of StockSearch before
uppercasing: ASCII letters, digits and the dot. -/
def searchInputClean (l : List Char) : List Char :=
  (l.filter fun c => c.isAlpha || c.isDigit || c == '.').map Char.toUpper

/-- The test deciding the Indian-stock branch in handleSearch of StockSearch:
the symbol consists only of letters and digits (the source regex is anchored
and case-insensitive). -/
def isIndianStock (l : List Char) : Bool :=
  !l.isEmpty && l.all fun c => c.isAlpha || c.isDigit

/-- The exchange marker appended by handleSearch. -/
def nsSuffix : List Char := ['.', 'N', 'S']

/-- handleSearch from StockSearch: nothing happens on an empty input;
otherwise the uppercased symbol gets the exchange marker appended exactly
when it is alphanumeric and does not already end with the marker. -/
def handleSearchFormat (search : List Char) : Option (List Char) :=
  if search.isEmpty then none
  else
    let symbol := search.map Char.toUpper
    some (if isIndianStock symbol && !(nsSuffix.isSuffixOf symbol) then
        symbol ++ nsSuffix
      else symbol)

/-- A well-formed addEntry input used as a concrete test vector. -/
def goodEntry : NewStockEntry :=
  { stockName := "Reliance", symbol := "RELIANCE.NS", dateBuy := 100,
    priceBuy := .val 100, targetPercent := .val 10, stopLossPercent := .val 5,
    reason := "breakout", confidence := "High" }

/-- The document addEntry writes for goodEntry at instant 0. -/
def goodDoc : DocumentData :=
  { stockName := some "Reliance", symbol := some "RELIANCE.NS",
    dateBuy := some 100, priceBuy := .val 100, targetPercent := .val 10,
    stopLossPercent := .val 5, reason := some "breakout",
    confidence := some "High", riskReward := .val (toFixed2 (10 / 5)),
    createdAt := some 0, updatedAt := some 0, status := some "Active" }

/-- An addEntry input whose buy price fails validation. -/
def badPriceEntry : NewStockEntry := { goodEntry with priceBuy := .val 0 }

/-- An addEntry input whose risk-reward ratio does not round exactly. -/
def rrEntry : NewStockEntry := { goodEntry with stopLossPercent := .val 3 }

/-- A concrete active in-memory entry used as a close test vector. -/
def e1 : StockEntry :=
  { id := "abc123", stockName := "Reliance", symbol := "RELIANCE.NS",
    dateBuy := 100, priceBuy := 100, targetPercent := 10, stopLossPercent := 5,
    reason := "breakout", confidence := "High", riskReward := some 2,
    status := "Active", createdAt := 100, updatedAt := 100 }

/-- The stored document corresponding to e1. -/
def d1 : DocumentData :=
  { stockName := some "Reliance", symbol := some "RELIANCE.NS",
    reason := some "breakout", confidence := some "High",
    status := some "Active", dateBuy := some 100, createdAt := some 100,
    updatedAt := some 100, priceBuy := .val 100, targetPercent := .val 10,
    stopLossPercent := .val 5, riskReward := .val 2 }

/-- The document stored for e1 after the close pipeline runs: only the
whitelisted fields change. -/
def closedDoc1 : DocumentData :=
  { d1 with priceSell := .val 112, dateSell := some 200, updatedAt := some 200 }

/-- A stored document with a stored zero profit and a stored true hit flag. -/
def d2 : DocumentData := { d1 with profitLoss := .val 0, hitTarget := some true }

/-- The entry getEntries returns for d2. -/
def e2 : StockEntry :=
  { id := "abc", stockName := "Reliance", symbol := "RELIANCE.NS",
    dateBuy := 100, priceBuy := 100, targetPercent := 10, stopLossPercent := 5,
    reason := "breakout", confidence := "High", riskReward := some 2,
    profitLoss := none, hitTarget := true, hitStopLoss := false,
    status := "Active", createdAt := 100, updatedAt := 100 }

/-! Helper lemmas about the embedding, shared by the claim theorems. -/

theorem except_bind_ok {ε α β : Type} {x : Except ε α} {f : α → Except ε β}
    {b : β} (h : (x >>= f) = .ok b) : ∃ a, x = .ok a ∧ f a = .ok b := by
  cases x with
  | error e => exact absurd h (by simp [Bind.bind, Except.bind])
  | ok a => exact ⟨a, rfl, by simpa [Bind.bind, Except.bind] using h⟩

theorem validateString_ok {s fieldName t : String}
    (h : validateString (some s) fieldName = .ok t) :
    ¬ jsTrim s = "" ∧ t = jsTrim s := by
  simp only [validateString] at h
  split at h <;> simp_all

theorem validateNumericField_ok {v : JsNumber} {fieldName : String} {q : ℚ}
    (h : validateNumericField v fieldName = .ok q) :
    v = .val q ∧ v.invalidPositive = false := by
  unfold validateNumericField validateAndFormatNumber at h
  cases v with
  | missing => simp [Bind.bind, Except.bind] at h
  | nan => simp [Bind.bind, Except.bind] at h
  | val q' =>
    simp only [Bind.bind, Except.bind] at h
    split at h <;>
      simp_all [throw, throwThe, MonadExceptOf.throw, pure, Except.pure,
        JsNumber.invalidPositive]

theorem addEntryValidate_ok_inv {now : Int} {entry : NewStockEntry}
    {d : DocumentData} (h : addEntryValidate now entry = .ok d) :
    entry.priceBuy.invalidPositive = false ∧
    entry.targetPercent.invalidPositive = false ∧
    entry.stopLossPercent.invalidPositive = false ∧
    ¬ jsTrim entry.reason = "" ∧
    (jsTrim entry.confidence = "Low" ∨ jsTrim entry.confidence = "Medium" ∨
      jsTrim entry.confidence = "High") ∧
    ∃ tp sp : ℚ, entry.targetPercent = .val tp ∧ entry.stopLossPercent = .val sp ∧
      d.riskReward = .val (toFixed2 (tp / sp)) := by
  unfold addEntryValidate at h
  obtain ⟨sn, hsn, h⟩ := except_bind_ok h
  obtain ⟨sy, hsy, h⟩ := except_bind_ok h
  obtain ⟨re, hre, h⟩ := except_bind_ok h
  obtain ⟨cf, hcf, h⟩ := except_bind_ok h
  obtain ⟨u, hu, h⟩ := except_bind_ok h
  obtain ⟨pb, hpb, h⟩ := except_bind_ok h
  obtain ⟨tp, htp, h⟩ := except_bind_ok h
  obtain ⟨sp, hsp, h⟩ := except_bind_ok h
  have hcfv : cf = "Low" ∨ cf = "Medium" ∨ cf = "High" := by
    by_contra hc
    rw [if_neg hc] at hu
    simp [throw, throwThe, MonadExceptOf.throw] at hu
  have hd : d.riskReward = .val (toFixed2 (tp / sp)) := by
    simp only [pure, Except.pure, Except.ok.injEq] at h
    rw [← h]
  obtain ⟨hre1, _⟩ := validateString_ok hre
  obtain ⟨hcf1, hcf2⟩ := validateString_ok hcf
  obtain ⟨hpb1, hpb2⟩ := validateNumericField_ok hpb
  obtain ⟨htp1, htp2⟩ := validateNumericField_ok htp
  obtain ⟨hsp1, hsp2⟩ := validateNumericField_ok hsp
  exact ⟨hpb2, htp2, hsp2, hre1, by rw [← hcf2]; exact hcfv,
    tp, sp, htp1, hsp1, hd⟩

theorem withRetryGo_const_error {σ α : Type} {op : Nat → σ → Except JsError α × σ}
    (maxRetries : Nat) (herr : ∀ n s, ∃ e, op n s = (.error e, s)) :
    ∀ fuel attempt s, ∃ e n,
      withRetryGo op maxRetries attempt fuel s = (.error (e, n), s) := by
  intro fuel
  induction fuel with
  | zero => exact fun attempt s => ⟨.generic "unreachable", attempt - 1, rfl⟩
  | succ fuel ih =>
    intro attempt s
    obtain ⟨e, he⟩ := herr attempt s
    simp only [withRetryGo, he]
    by_cases hr : retryableInLoop e = true
    · rw [if_pos hr]
      by_cases ha : attempt = maxRetries
      · rw [if_pos ha]; exact ⟨e, attempt, rfl⟩
      · rw [if_neg ha]; exact ih (attempt + 1) s
    · rw [if_neg hr]; exact ⟨e, attempt, rfl⟩

theorem except_mapError_ok {ε ε' α : Type} {x : Except ε α} {f : ε → ε'}
    {b : α} (h : x.mapError f = .ok b) : x = .ok b := by
  cases x <;> simp_all [Except.mapError]

/-! Claim theorems. -/

/-- C1: closing an entry is supposed to leave a stored record with status
Closed, the profit or loss, and the two hit flags. Evaluating the close
pipeline on a concrete active entry shows the in-memory entry does receive
those values, but the document written to the store does not: updateEntry
drops them, so the stored status stays Active and the stored profit and hit
flags stay absent, while the sell price and sell date are written. -/
theorem close_status_not_persisted :
    closePipeline 200 e1 d1 200 112 = .ok (closeEntryLocal e1 200 112, closedDoc1) ∧
    (closeEntryLocal e1 200 112).status = "Closed" ∧
    (closeEntryLocal e1 200 112).profitLoss = some 12 ∧
    (closeEntryLocal e1 200 112).hitTarget = true ∧
    (closeEntryLocal e1 200 112).hitStopLoss = false ∧
    closedDoc1.status = some "Active" ∧
    closedDoc1.profitLoss = .missing ∧
    closedDoc1.hitTarget = none ∧
    closedDoc1.hitStopLoss = none ∧
    closedDoc1.priceSell = .val 112 ∧
    closedDoc1.dateSell = some 200 := by
  refine ⟨rfl, rfl, ?_, ?_, ?_, rfl, rfl, rfl, rfl, rfl, rfl⟩ <;>
    norm_num [closeEntryLocal, e1]

/-- C2: a store operation that always fails with a transient error is indeed
attempted exactly the configured maximum number of times (5 in production),
but a store operation that always fails with a permission error is also
attempted the full maximum (3 in development) instead of exactly once,
because handleFirestoreError has already replaced the FirestoreError by a
plain Error when the retry loop classifies it. -/
theorem store_error_attempt_counts :
    (addEntry true (fun _ => some (.firestore .unavailable "backend unavailable"))
        0 goodEntry []).1 =
      .error (.generic "The service is temporarily unavailable. Please try again in a few moments.", 5) ∧
    (addEntry false (fun _ => some (.firestore .permissionDenied "Missing or insufficient permissions."))
        0 goodEntry []).1 =
      .error (.generic "Please verify that you have the necessary permissions to perform this operation. If the issue persists, try refreshing the page.", 3) ∧
    (3 : Nat) ≠ 1 := by
  refine ⟨by decide, by decide, by decide⟩

/-- C3: an addEntry input that fails field validation is not settled in one
attempt: the deterministic validation failure is retried up to the maximum
(3 in development) before the field-specific message surfaces, because the
rethrown error is a plain Error, which the retry loop treats as retryable.
No store write occurs on any attempt. -/
theorem validation_error_attempt_count :
    (addEntry false (fun _ => none) 0 badPriceEntry []).1 =
      .error (.generic "Failed to add stock entry: Buy price must be greater than 0", 3) ∧
    (addEntry false (fun _ => none) 0 badPriceEntry []).2 = [] := by
  exact ⟨by decide, by decide⟩

/-- C4 counterexample: with targetPercent 10 and stopLossPercent 3 the
riskReward stored by addEntry is 3.33, the two-decimal rounding of 10 over 3,
which is not within 1e-9 of 10 over 3. -/
theorem riskReward_not_within_tolerance :
    (addEntryValidate 0 rrEntry).map DocumentData.riskReward =
      .ok (.val (toFixed2 (10 / 3))) ∧
    toFixed2 ((10 : ℚ) / 3) = 333 / 100 ∧
    ¬ |(333 : ℚ) / 100 - 10 / 3| ≤ 1 / 1000000000 := by
  refine ⟨rfl, by norm_num [toFixed2, round_eq], ?_⟩
  rw [show (333 : ℚ) / 100 - 10 / 3 = -(1 / 300) by norm_num, abs_neg,
    abs_of_pos (by norm_num : (0 : ℚ) < 1 / 300)]
  norm_num

/-- C4 amended: the derived target and stop-loss prices satisfy the spec
formulas exactly, and the riskReward stored by addEntry is the two-decimal
rounding of targetPercent over stopLossPercent, hence within 1/200 of the
exact ratio (not within 1e-9 in general). -/
theorem derived_price_and_riskReward (p t l : ℚ) (now : Int)
    (entry : NewStockEntry) (d : DocumentData)
    (ht : entry.targetPercent = .val t) (hl : entry.stopLossPercent = .val l)
    (hok : addEntryValidate now entry = .ok d) :
    targetPrice p t = p * (1 + t / 100) ∧
    stopLossPrice p l = p * (1 - l / 100) ∧
    d.riskReward = .val (toFixed2 (t / l)) ∧
    |toFixed2 (t / l) - t / l| ≤ 1 / 200 := by
  obtain ⟨-, -, -, -, -, tp, sp, htp, hsp, hrr⟩ := addEntryValidate_ok_inv hok
  rw [ht] at htp
  rw [hl] at hsp
  cases htp
  cases hsp
  refine ⟨rfl, rfl, hrr, ?_⟩
  have hr := abs_sub_round (t / l * 100)
  rw [abs_sub_comm] at hr
  have hq : toFixed2 (t / l) - t / l =
      ((round (t / l * 100) : ℤ) - t / l * 100) / 100 := by
    rw [toFixed2]; ring
  rw [hq, abs_div, abs_of_pos (by norm_num : (0 : ℚ) < 100)]
  linarith

theorem derived_price_and_riskReward_witness :
    targetPrice 100 10 = 100 * (1 + 10 / 100) ∧
    stopLossPrice 100 5 = 100 * (1 - 5 / 100) ∧
    goodDoc.riskReward = .val (toFixed2 (10 / 5)) ∧
    |toFixed2 ((10 : ℚ) / 5) - 10 / 5| ≤ 1 / 200 :=
  derived_price_and_riskReward 100 10 5 0 goodEntry goodDoc rfl rfl rfl

/-- C5 counterexample: a sell date strictly before the buy date is not
rejected by any code on the close path; the close attempt succeeds and the
store receives dateSell 50 against dateBuy 100. Only the calendar widget
disables such dates, and the default sell date bypasses that restriction
whenever the buy date lies after it. -/
theorem close_accepts_dateSell_before_dateBuy :
    ((closeAttempt 50 e1 d1 50 (.val 5)).map fun r => (r.2.dateSell, r.2.dateBuy)) =
      .ok (some 50, some 100) ∧ (50 : Int) < 100 := by
  exact ⟨by decide, by decide⟩

/-- C5 amended: a close attempt whose parsed sell price is NaN or not
positive is rejected by the dialog submit handler before onAddSellDetails
runs, and the stored document is unchanged; the sell-date ordering, however,
is not checked programmatically. -/
theorem close_rejects_nonpositive_sell_price (now : Int) (entry : StockEntry)
    (doc : DocumentData) (dateSell : Int) (parsed : JsNumber)
    (h : parsed.invalidPositive = true) :
    (∃ e, closeAttempt now entry doc dateSell parsed = .error e) ∧
    closeResultStore now entry doc dateSell parsed = doc := by
  have hp : ∃ e, sellDialogParse parsed = .error e := by
    cases parsed with
    | missing => exact ⟨_, rfl⟩
    | nan => exact ⟨_, rfl⟩
    | val q =>
      simp only [JsNumber.invalidPositive, decide_eq_true_eq] at h
      refine ⟨.generic "Please enter a valid sell price", ?_⟩
      simp only [sellDialogParse]
      rw [if_pos h]
  obtain ⟨e, he⟩ := hp
  have hc : closeAttempt now entry doc dateSell parsed = .error e := by
    simp [closeAttempt, he, Bind.bind, Except.bind]
  exact ⟨⟨e, hc⟩, by simp [closeResultStore, hc]⟩

theorem close_rejects_nonpositive_sell_price_witness :
    (∃ e, closeAttempt 200 e1 d1 200 (.val 0) = .error e) ∧
    closeResultStore 200 e1 d1 200 (.val 0) = d1 :=
  close_rejects_nonpositive_sell_price 200 e1 d1 200 (.val 0) (by decide)

/-- C6: an addEntry input with a nonpositive or non-numeric priceBuy,
targetPercent or stopLossPercent, an empty reason after trimming, or a
confidence outside the three-level enumeration, makes addEntry surface an
error and leaves the stored collection unchanged, whatever the environment
and whatever the store would have answered. -/
theorem addEntry_rejects_invalid_input (production : Bool)
    (storeErr : Nat → Option JsError) (now : Int) (entry : NewStockEntry)
    (store : List DocumentData)
    (h : entry.priceBuy.invalidPositive = true ∨
      entry.targetPercent.invalidPositive = true ∨
      entry.stopLossPercent.invalidPositive = true ∨
      jsTrim entry.reason = "" ∨
      ¬ (jsTrim entry.confidence = "Low" ∨ jsTrim entry.confidence = "Medium" ∨
        jsTrim entry.confidence = "High")) :
    (∃ e n, (addEntry production storeErr now entry store).1 = .error (e, n)) ∧
    (addEntry production storeErr now entry store).2 = store := by
  have hval : ∃ e, addEntryValidate now entry = .error e := by
    cases hcase : addEntryValidate now entry with
    | error e => exact ⟨e, rfl⟩
    | ok d =>
      obtain ⟨h1, h2, h3, h4, h5, -⟩ := addEntryValidate_ok_inv hcase
      rcases h with h | h | h | h | h <;> simp_all
  obtain ⟨e, he⟩ := hval
  have hop : ∀ n s, ∃ e', addEntryOp storeErr now entry n s = (.error e', s) :=
    fun n s => ⟨handleFirestoreError e "add stock entry", by simp [addEntryOp, he]⟩
  obtain ⟨e', n, hr⟩ :=
    withRetryGo_const_error (MAX_RETRIES production) hop (MAX_RETRIES production) 1 store
  constructor
  · exact ⟨e', n, by simp [addEntry, withRetry, hr]⟩
  · simp [addEntry, withRetry, hr]

theorem addEntry_rejects_invalid_input_witness :
    (∃ e n, (addEntry false (fun _ => none) 0 badPriceEntry []).1 = .error (e, n)) ∧
    (addEntry false (fun _ => none) 0 badPriceEntry []).2 = [] :=
  addEntry_rejects_invalid_input false (fun _ => none) 0 badPriceEntry []
    (Or.inl (by decide))

/-- C7 counterexample: with a present price of 100 and a previous close of 0
the displayed percent change evaluates to positive infinity and the change
to the finite value 100, and with the previous close absent both values
evaluate to NaN; none of them is replaced by undefined before display. -/
theorem livePrice_zero_previousClose_values :
    livePriceChangePercent { regularMarketPrice := some 100, previousClose := some 0 } = .posInf ∧
    livePriceChange { regularMarketPrice := some 100, previousClose := some 0 } = .fin 100 ∧
    livePriceChange { regularMarketPrice := some 100, previousClose := none } = .nan ∧
    livePriceChangePercent { regularMarketPrice := some 100, previousClose := none } = .nan := by
  refine ⟨?_, ?_, rfl, rfl⟩ <;>
    norm_num [livePriceChangePercent, livePriceChange, jsOfOpt, jsSub, jsDiv, jsMul]

/-- C7 amended: the LivePrice view values are computed unconditionally. With
a nonzero previous close they equal the spec formulas; with a zero previous
close and a positive price the percent change is positive infinity; with an
absent previous close both values are NaN. The component never replaces them
by undefined. -/
theorem livePrice_derived_values (meta : QuoteMeta) (p c : ℚ)
    (hp : meta.regularMarketPrice = some p) :
    (meta.previousClose = some c → c ≠ 0 →
      livePriceChange meta = .fin (p - c) ∧
      livePriceChangePercent meta = .fin ((p - c) / c * 100)) ∧
    (meta.previousClose = some 0 → 0 < p →
      livePriceChangePercent meta = .posInf) ∧
    (meta.previousClose = none →
      livePriceChange meta = .nan ∧ livePriceChangePercent meta = .nan) := by
  refine ⟨?_, ?_, ?_⟩
  · intro hc hcz
    simp [livePriceChange, livePriceChangePercent, jsOfOpt, jsSub, jsDiv,
      jsMul, hp, hc, hcz]
  · intro hc hpp
    have hpne : p ≠ 0 := ne_of_gt hpp
    simp only [livePriceChange, livePriceChangePercent, jsOfOpt, hp, hc, jsSub]
    norm_num [jsDiv, jsMul, sub_zero, hpne, hpp]
  · intro hc
    simp [livePriceChange, livePriceChangePercent, jsOfOpt, jsSub, jsDiv,
      jsMul, hp, hc]

theorem livePrice_derived_values_witness :
    livePriceChange { regularMarketPrice := some 102, previousClose := some 100 } =
      .fin (102 - 100) ∧
    livePriceChangePercent { regularMarketPrice := some 102, previousClose := some 100 } =
      .fin ((102 - 100) / 100 * 100) :=
  (livePrice_derived_values
    { regularMarketPrice := some 102, previousClose := some 100 }
    102 100 rfl).1 rfl (by norm_num)

/-- C8 counterexample: the four-letter US-style symbol AAPL is not left
unmodified by the search formatting; the exchange marker is appended because
the branch test only asks whether the symbol is alphanumeric. -/
theorem us_symbol_gets_suffix_appended :
    handleSearchFormat ['A', 'A', 'P', 'L'] =
      some ['A', 'A', 'P', 'L', '.', 'N', 'S'] ∧
    ['A', 'A', 'P', 'L', '.', 'N', 'S'] ≠ ['A', 'A', 'P', 'L'] := by
  exact ⟨by decide, by decide⟩

/-- C8 amended: a nonempty symbol whose uppercased form is alphanumeric and
does not already end with the exchange marker gets the marker appended, so
the result ends with it; a symbol already ending with the marker is left
unmodified, as is any symbol failing the alphanumeric test; but a bare 1 to
5 letter US-style symbol is alphanumeric, hence also receives the marker
rather than being left unmodified. -/
theorem symbol_suffix_rule (l : List Char) (hne : l.isEmpty = false) :
    (isIndianStock (l.map Char.toUpper) = true →
      nsSuffix.isSuffixOf (l.map Char.toUpper) = false →
      handleSearchFormat l = some (l.map Char.toUpper ++ nsSuffix) ∧
      nsSuffix.isSuffixOf (l.map Char.toUpper ++ nsSuffix) = true) ∧
    (nsSuffix.isSuffixOf (l.map Char.toUpper) = true →
      handleSearchFormat l = some (l.map Char.toUpper)) ∧
    (isIndianStock (l.map Char.toUpper) = false →
      handleSearchFormat l = some (l.map Char.toUpper)) := by
  refine ⟨fun hi hs => ⟨?_, ?_⟩, fun hs => ?_, fun hi => ?_⟩
  · simp [handleSearchFormat, hne, hi, hs]
  · rw [List.isSuffixOf_iff_suffix]
    exact List.suffix_append _ _
  · simp [handleSearchFormat, hne, hs]
  · simp [handleSearchFormat, hne, hi]

theorem symbol_suffix_rule_witness :
    handleSearchFormat ['R', 'E', 'L'] =
      some (['R', 'E', 'L'].map Char.toUpper ++ nsSuffix) :=
  ((symbol_suffix_rule ['R', 'E', 'L'] (by decide)).1 (by decide) (by decide)).1

/-- C9: for an entry closed through onAddSellDetails, a sell price at or
above the derived target price forces hitTarget, a sell price at or below
the derived stop-loss price forces hitStopLoss, and both flags can only hold
together when the target price does not exceed the stop-loss price. -/
theorem closed_entry_hit_flags (entry : StockEntry) (dateSell : Int)
    (priceSell : ℚ) :
    (priceSell ≥ targetPrice entry.priceBuy entry.targetPercent →
      (closeEntryLocal entry dateSell priceSell).hitTarget = true) ∧
    (priceSell ≤ stopLossPrice entry.priceBuy entry.stopLossPercent →
      (closeEntryLocal entry dateSell priceSell).hitStopLoss = true) ∧
    ((closeEntryLocal entry dateSell priceSell).hitTarget = true →
      (closeEntryLocal entry dateSell priceSell).hitStopLoss = true →
      targetPrice entry.priceBuy entry.targetPercent ≤
        stopLossPrice entry.priceBuy entry.stopLossPercent) := by
  refine ⟨fun h => ?_, fun h => ?_, fun h1 h2 => ?_⟩
  · simp only [closeEntryLocal, decide_eq_true_eq]
    simpa [targetPrice] using h
  · simp only [closeEntryLocal, decide_eq_true_eq]
    simpa [stopLossPrice] using h
  · simp only [closeEntryLocal, decide_eq_true_eq] at h1 h2
    simp only [targetPrice, stopLossPrice]
    linarith

theorem closed_entry_hit_flags_witness :
    (closeEntryLocal e1 200 112).hitTarget = true :=
  (closed_entry_hit_flags e1 200 112).1 (by norm_num [targetPrice, e1])

/-- C10: every document that getEntries converts successfully has boolean
hit flags equal to the truthiness of the stored flags (false when absent),
and each of the optional fields priceSell, profitLoss, riskReward, dateSell
and chartLink comes back as undefined whenever its stored value is falsy; in
particular a stored profit of exactly 0 is not returned. -/
theorem getEntries_optional_field_normalization {id : String}
    {data : DocumentData} {e : StockEntry}
    (h : convertFirestoreToStockEntry id data = .ok e) :
    e.hitTarget = boolTruthy data.hitTarget ∧
    e.hitStopLoss = boolTruthy data.hitStopLoss ∧
    (data.priceSell.truthy = false → e.priceSell = none) ∧
    (data.profitLoss.truthy = false → e.profitLoss = none) ∧
    (data.riskReward.truthy = false → e.riskReward = none) ∧
    (dateTruthy data.dateSell = false → e.dateSell = none) ∧
    (strTruthy data.chartLink = false → e.chartLink = none) ∧
    (data.profitLoss = .val 0 → e.profitLoss = none) := by
  unfold convertFirestoreToStockEntry at h
  replace h := except_mapError_ok h
  obtain ⟨sn, hsn, h⟩ := except_bind_ok h
  obtain ⟨sy, hsy, h⟩ := except_bind_ok h
  obtain ⟨re, hre, h⟩ := except_bind_ok h
  obtain ⟨cf, hcf, h⟩ := except_bind_ok h
  obtain ⟨u1, hu1, h⟩ := except_bind_ok h
  obtain ⟨db, hdb, h⟩ := except_bind_ok h
  obtain ⟨ca, hca, h⟩ := except_bind_ok h
  obtain ⟨ua, hua, h⟩ := except_bind_ok h
  obtain ⟨pb, hpb, h⟩ := except_bind_ok h
  obtain ⟨tp, htp, h⟩ := except_bind_ok h
  obtain ⟨sp, hsp, h⟩ := except_bind_ok h
  obtain ⟨cl, hcl, h⟩ := except_bind_ok h
  obtain ⟨ds, hds, h⟩ := except_bind_ok h
  obtain ⟨ps, hps, h⟩ := except_bind_ok h
  obtain ⟨pl, hpl, h⟩ := except_bind_ok h
  obtain ⟨st, hst, h⟩ := except_bind_ok h
  obtain ⟨u2, hu2, h⟩ := except_bind_ok h
  simp only [pure, Except.pure, Except.ok.injEq] at h
  subst h
  refine ⟨rfl, rfl, fun hf => ?_, fun hf => ?_, fun hf => ?_, fun hf => ?_,
    fun hf => ?_, fun hf => ?_⟩
  · rw [hf] at hps
    simpa [pure, Except.pure, eq_comm] using hps
  · rw [hf] at hpl
    simpa [pure, Except.pure, eq_comm] using hpl
  · show (match data.riskReward with
      | .val q => if q = 0 then none else some q
      | .nan => none
      | .missing => none) = none
    cases hr : data.riskReward with
    | missing => rfl
    | nan => rfl
    | val q =>
      rw [hr] at hf
      simp only [JsNumber.truthy, bne_eq_false_iff_eq] at hf
      simp [hf]
  · rw [hf] at hds
    simpa [pure, Except.pure, eq_comm] using hds
  · rw [hf] at hcl
    simpa [pure, Except.pure, eq_comm] using hcl
  · have hft : data.profitLoss.truthy = false := by
      rw [hf]; rfl
    rw [hft] at hpl
    simpa [pure, Except.pure, eq_comm] using hpl

theorem getEntries_optional_field_normalization_witness :
    e2.hitTarget = boolTruthy d2.hitTarget ∧
    e2.hitStopLoss = boolTruthy d2.hitStopLoss ∧
    (d2.priceSell.truthy = false → e2.priceSell = none) ∧
    (d2.profitLoss.truthy = false → e2.profitLoss = none) ∧
    (d2.riskReward.truthy = false → e2.riskReward = none) ∧
    (dateTruthy d2.dateSell = false → e2.dateSell = none) ∧
    (strTruthy d2.chartLink = false → e2.chartLink = none) ∧
    (d2.profitLoss = .val 0 → e2.profitLoss = none) :=
  @getEntries_optional_field_normalization "abc" d2 e2 (by decide)

end StockLedger
